import Mathlib

/-!
Shallow embedding of `convert_to_ico.py`: a script that checks for an input
PNG at a fixed path, decodes it with an image library, saves a
multi-resolution ICO file at a fixed output path, and prints two status
lines.  The filesystem is modelled as an association list from paths to
nodes; the external image library's operations (`Image.open`, `img.save`)
are modelled from the spec's contract for them (decode to a raster image,
resample at each requested size, pack the variants into an ICO container),
since the library itself is outside the repository.
-/

/-- An in-memory decoded raster image: intrinsic width/height and pixel data. -/
structure RawImage where
  width : Nat
  height : Nat
  pixels : List Nat
deriving DecidableEq, Repr

/-- Modelled from the spec: resampling produces a raster of exactly the target
dimensions from the source (nearest-neighbour interpolation of the source
pixel grid). -/
def resample (img : RawImage) (w h : Nat) : RawImage :=
  { width := w
    height := h
    pixels := (List.range (w * h)).map (fun i =>
      let x := i % w
      let y := i / w
      img.pixels.getD (y * img.height / h * img.width + x * img.width / w) 0) }

/-- An ICO container: a sequence of embedded raster images, one directory
entry per embedded image. -/
structure IcoFile where
  entries : List RawImage
deriving DecidableEq, Repr

/-- Contents of a file on disk, classified by whether the image library can
decode it: `image` holds bytes that decode to a raster image, `ico` is an
ICO container written by the program, `garbage` is undecodable data. -/
inductive FileContent where
  | image (img : RawImage)
  | ico (f : IcoFile)
  | garbage (bytes : List Nat)
deriving DecidableEq, Repr

/-- A filesystem node: a regular file (with a readability flag) or a
directory. -/
inductive FSNode where
  | file (content : FileContent) (readable : Bool)
  | dir
deriving DecidableEq, Repr

/-- The filesystem: an association list from paths to nodes; the first
binding for a path is its current node. -/
abbrev FS := List (String × FSNode)

/-- Look a path up in the filesystem. -/
def fsGet : FS → String → Option FSNode
  | [], _ => none
  | (q, n) :: rest, p => if p = q then some n else fsGet rest p

/-- Write a node at a path, shadowing any previous binding (overwrite). -/
def fsSet (fs : FS) (p : String) (n : FSNode) : FS :=
  (p, n) :: fs

/-- `input_file = "faviconPNG.png"` from the source. -/
def input_file : String := "faviconPNG.png"

/-- `output_file = "favicon.ico"` from the source. -/
def output_file : String := "favicon.ico"

/-- `sizes = [(16, 16), (32, 32), (48, 48)]` from the source. -/
def sizes : List (Nat × Nat) := [(16, 16), (32, 32), (48, 48)]

/-- Uncaught exceptions the library can raise: failing to open the path as a
file (directory / unreadable), or failing to decode its bytes. -/
inductive PyError where
  | openFailure
  | decodeFailure
deriving DecidableEq, Repr

/-- How the process ends: a normal termination with an exit code, or a crash
from an uncaught exception (a non-success termination). -/
inductive ExitStatus where
  | exitCode (code : Nat)
  | crashed (err : PyError)
deriving DecidableEq, Repr

/-- `true` exactly when the status is a normal exit with code 0. -/
def isSuccess : ExitStatus → Bool
  | .exitCode 0 => true
  | _ => false

/-- Resource events on the image handle during a run. -/
inductive Event where
  | openImg
  | save
  | closeImg
deriving DecidableEq, Repr, BEq

/-- `Image.open`: fails on a directory or an unreadable file; on a readable
regular file it decodes, yielding the raster image or an uncaught decode
error for undecodable bytes. -/
def openImage : FSNode → Except PyError RawImage
  | .dir => .error .openFailure
  | .file c readable =>
    if readable then
      match c with
      | .image img => .ok img
      | _ => .error .decodeFailure
    else
      .error .openFailure

/-- Modelled from the spec: `img.save(..., format='ICO', sizes=...)` embeds
one resampled variant of the source per requested size into one ICO
container. -/
def icoSave (img : RawImage) (szs : List (Nat × Nat)) : IcoFile :=
  ⟨szs.map (fun s => resample img s.1 s.2)⟩

/-- The save call's full effect on in-memory state: the produced container,
and the image object after the call (the save reads the image and does not
mutate it). -/
def icoSaveEffect (img : RawImage) (szs : List (Nat × Nat)) :
    IcoFile × RawImage :=
  (icoSave img szs, img)

/-- Text of `sizes` as Python prints the list. -/
def sizesText : String := "[(16, 16), (32, 32), (48, 48)]"

/-- The diagnostic printed when the input file is missing. -/
def errorLine : String := "Error: " ++ input_file ++ " not found!"

/-- The first success line. -/
def successLine : String :=
  "Successfully created " ++ output_file ++ " with sizes: " ++ sizesText

/-- The second success line: the (post-save) image object's dimensions. -/
def origSizeLine (img : RawImage) : String :=
  "Original image size: (" ++ toString img.width ++ ", "
    ++ toString img.height ++ ")"

/-- Everything observable about one run: final process status, the stdout
lines in order, the filesystem after the run, the image-handle events, and
the dimension pair passed to the second print (if reached). -/
structure RunResult where
  status : ExitStatus
  stdout : List String
  fs : FS
  events : List Event
  reportedSize : Option (Nat × Nat)
deriving Repr

/-- The whole script, as a function of the starting filesystem:
existence check, open/decode, save, report. -/
def runProgram (fs : FS) : RunResult :=
  match fsGet fs input_file with
  | none =>
    { status := .exitCode 1
      stdout := [errorLine]
      fs := fs
      events := []
      reportedSize := none }
  | some node =>
    match openImage node with
    | .error e =>
      { status := .crashed e
        stdout := []
        fs := fs
        events := []
        reportedSize := none }
    | .ok img =>
      let saved := icoSaveEffect img sizes
      let imgAfter := saved.2
      { status := .exitCode 0
        stdout := [successLine, origSizeLine imgAfter]
        fs := fsSet fs output_file (.file (.ico saved.1) true)
        events := [.openImg, .save]
        reportedSize := some (imgAfter.width, imgAfter.height) }

/-- `true` exactly when the run took the missing-input error path:
diagnostic line plus exit code 1. -/
def errorPathTaken (fs : FS) : Bool :=
  decide ((runProgram fs).status = ExitStatus.exitCode 1
    ∧ (runProgram fs).stdout = [errorLine])

/-- `true` exactly when the path is bound to a regular readable file. -/
def isRegularReadableFile (fs : FS) (p : String) : Bool :=
  match fsGet fs p with
  | some (.file _ true) => true
  | _ => false

/-- A concrete 2×3 decoded image used in witnesses. -/
def testImg : RawImage := ⟨2, 3, [9, 8, 7, 6, 5, 4]⟩

/-- A filesystem holding a valid decodable input file. -/
def fsValid : FS := [(input_file, FSNode.file (FileContent.image testImg) true)]

/-- A filesystem with nothing at the input path. -/
def fsEmpty : FS := []

/-- A filesystem with a directory at the input path. -/
def fsDir : FS := [(input_file, FSNode.dir)]

/-- A filesystem with undecodable bytes at the input path. -/
def fsGarbage : FS :=
  [(input_file, FSNode.file (FileContent.garbage [1, 2, 3]) true)]

/-- A filesystem with the same valid input plus a stale `favicon.ico`
holding unrelated bytes, used to witness the overwrite claim. -/
def fsWithOld : FS :=
  [(input_file, FSNode.file (FileContent.image testImg) true),
    (output_file, FSNode.file (FileContent.garbage [0, 0, 0]) true)]

/-- The input and output paths differ, so writing the output never shadows
the input. -/
theorem input_ne_output : input_file ≠ output_file := by decide

/-- Claim C1: for every decodable input image, whatever its dimensions, the
run writes `favicon.ico` as an ICO container with exactly one entry per
requested size — three embedded images, the resampled copies of the source
at 16×16, 32×32 and 48×48. -/
theorem valid_input_writes_three_sizes (fs : FS) (img : RawImage)
    (h : fsGet fs input_file = some (FSNode.file (FileContent.image img) true)) :
    fsGet (runProgram fs).fs output_file
        = some (FSNode.file (FileContent.ico (icoSave img sizes)) true)
      ∧ (icoSave img sizes).entries
        = [resample img 16 16, resample img 32 32, resample img 48 48]
      ∧ (icoSave img sizes).entries.map (fun e => (e.width, e.height)) = sizes := by
  refine ⟨?_, rfl, rfl⟩
  simp [runProgram, h, openImage, icoSaveEffect, fsSet, fsGet]

/-- Witness for C1 at a concrete 2×3 image. -/
theorem valid_input_writes_three_sizes_witness :
    fsGet fsValid input_file
        = some (FSNode.file (FileContent.image testImg) true)
      ∧ (fsGet (runProgram fsValid).fs output_file
          = some (FSNode.file (FileContent.ico (icoSave testImg sizes)) true)
        ∧ (icoSave testImg sizes).entries
          = [resample testImg 16 16, resample testImg 32 32,
              resample testImg 48 48]
        ∧ (icoSave testImg sizes).entries.map (fun e => (e.width, e.height))
          = sizes) :=
  ⟨rfl, valid_input_writes_three_sizes fsValid testImg rfl⟩

/-- Claim C2: with nothing at the input path the run prints exactly one
diagnostic line naming the missing path, exits with code 1, performs no
further work (no handle events) and leaves the filesystem — in particular
`favicon.ico` — untouched. -/
theorem missing_input_early_exit (fs : FS)
    (h : fsGet fs input_file = none) :
    (runProgram fs).status = ExitStatus.exitCode 1
      ∧ (runProgram fs).stdout = [errorLine]
      ∧ (∃ a b, errorLine = a ++ input_file ++ b)
      ∧ (runProgram fs).events = []
      ∧ (runProgram fs).fs = fs
      ∧ fsGet (runProgram fs).fs output_file = fsGet fs output_file := by
  refine ⟨?_, ?_, ⟨"Error: ", " not found!", rfl⟩, ?_, ?_, ?_⟩ <;>
    simp [runProgram, h]

/-- Witness for C2 on the empty filesystem. -/
theorem missing_input_early_exit_witness :
    fsGet fsEmpty input_file = none
      ∧ ((runProgram fsEmpty).status = ExitStatus.exitCode 1
        ∧ (runProgram fsEmpty).stdout = [errorLine]
        ∧ (∃ a b, errorLine = a ++ input_file ++ b)
        ∧ (runProgram fsEmpty).events = []
        ∧ (runProgram fsEmpty).fs = fsEmpty
        ∧ fsGet (runProgram fsEmpty).fs output_file
          = fsGet fsEmpty output_file) :=
  ⟨rfl, missing_input_early_exit fsEmpty rfl⟩

/-- Claim C3 as stated is false: a directory at the input path is not a
regular readable file, yet the missing-input error path is not taken — the
existence guard passes and the run instead crashes inside the open call. -/
theorem guard_not_regular_readable :
    ¬ (errorPathTaken fsDir = true
        ↔ isRegularReadableFile fsDir input_file = false) := by decide

/-- Claim C3 amended: the diagnostic-plus-exit-1 path is taken exactly when
the input path is absent altogether; an existing directory or unreadable
file passes the existence check and the run fails later, uncaught. -/
theorem error_path_iff_absent (fs : FS) :
    errorPathTaken fs = true ↔ fsGet fs input_file = none := by
  cases hg : fsGet fs input_file with
  | none => simp [errorPathTaken, runProgram, hg]
  | some node =>
    cases node with
    | dir => simp [errorPathTaken, runProgram, hg, openImage]
    | file c r =>
      cases r <;> cases c <;>
        simp [errorPathTaken, runProgram, hg, openImage]

/-- Claim C4: every run that exits with code 0 printed exactly two lines:
first the confirmation carrying the output path and the literal size list,
then the source image's own dimensions. -/
theorem success_prints_two_lines (fs : FS)
    (h : (runProgram fs).status = ExitStatus.exitCode 0) :
    ∃ img,
      fsGet fs input_file = some (FSNode.file (FileContent.image img) true)
        ∧ (runProgram fs).stdout = [successLine, origSizeLine img]
        ∧ (runProgram fs).stdout.length = 2
        ∧ (∃ a b, successLine = a ++ output_file ++ b)
        ∧ (∃ c, successLine = c ++ sizesText)
        ∧ (runProgram fs).reportedSize = some (img.width, img.height) := by
  cases hg : fsGet fs input_file with
  | none => simp [runProgram, hg] at h
  | some node =>
    cases node with
    | dir => simp [runProgram, hg, openImage] at h
    | file c r =>
      cases r with
      | false => simp [runProgram, hg, openImage] at h
      | true =>
        cases c with
        | ico f => simp [runProgram, hg, openImage] at h
        | garbage bs => simp [runProgram, hg, openImage] at h
        | image img =>
          refine ⟨img, rfl, ?_, ?_,
            ⟨"Successfully created ", " with sizes: " ++ sizesText, by decide⟩,
            ⟨"Successfully created " ++ output_file ++ " with sizes: ",
              by decide⟩, ?_⟩ <;>
            simp [runProgram, hg, openImage, icoSaveEffect]

/-- Witness for C4 on a filesystem with a valid input. -/
theorem success_prints_two_lines_witness :
    (runProgram fsValid).status = ExitStatus.exitCode 0
      ∧ ∃ img,
          fsGet fsValid input_file
              = some (FSNode.file (FileContent.image img) true)
            ∧ (runProgram fsValid).stdout = [successLine, origSizeLine img]
            ∧ (runProgram fsValid).stdout.length = 2
            ∧ (∃ a b, successLine = a ++ output_file ++ b)
            ∧ (∃ c, successLine = c ++ sizesText)
            ∧ (runProgram fsValid).reportedSize
              = some (img.width, img.height) :=
  ⟨rfl, success_prints_two_lines fsValid rfl⟩

/-- Claim C5: undecodable bytes at the input path crash the run with the
uncaught decode error — a non-success termination with nothing caught and
no fallback — and the filesystem is untouched, so no partial
`favicon.ico` appears. -/
theorem undecodable_input_crashes (fs : FS) (bs : List Nat)
    (h : fsGet fs input_file
      = some (FSNode.file (FileContent.garbage bs) true)) :
    (runProgram fs).status = ExitStatus.crashed PyError.decodeFailure
      ∧ isSuccess (runProgram fs).status = false
      ∧ (runProgram fs).fs = fs
      ∧ fsGet (runProgram fs).fs output_file = fsGet fs output_file := by
  refine ⟨?_, ?_, ?_, ?_⟩ <;> simp [runProgram, h, openImage, isSuccess]

/-- Witness for C5 on a filesystem holding garbage bytes at the input
path. -/
theorem undecodable_input_crashes_witness :
    fsGet fsGarbage input_file
        = some (FSNode.file (FileContent.garbage [1, 2, 3]) true)
      ∧ ((runProgram fsGarbage).status
          = ExitStatus.crashed PyError.decodeFailure
        ∧ isSuccess (runProgram fsGarbage).status = false
        ∧ (runProgram fsGarbage).fs = fsGarbage
        ∧ fsGet (runProgram fsGarbage).fs output_file
          = fsGet fsGarbage output_file) :=
  ⟨rfl, undecodable_input_crashes fsGarbage [1, 2, 3] rfl⟩

/-- Claim C6: with the same valid input still in place, a second run writes
the same `favicon.ico` the first run wrote — the run does not disturb the
input file, and the writer is a function of the decoded image alone. -/
theorem second_run_matches_first (fs : FS) (img : RawImage)
    (h : fsGet fs input_file = some (FSNode.file (FileContent.image img) true)) :
    fsGet (runProgram (runProgram fs).fs).fs output_file
        = fsGet (runProgram fs).fs output_file
      ∧ fsGet (runProgram fs).fs output_file
        = some (FSNode.file (FileContent.ico (icoSave img sizes)) true) := by
  have hfs1 : (runProgram fs).fs
      = fsSet fs output_file
          (FSNode.file (FileContent.ico (icoSave img sizes)) true) := by
    simp [runProgram, h, openImage, icoSaveEffect]
  have h2 : fsGet (runProgram fs).fs input_file
      = some (FSNode.file (FileContent.image img) true) := by
    rw [hfs1]
    simp [fsSet, fsGet, input_ne_output, h]
  constructor
  · rw [hfs1]
    simp [runProgram, fsSet, fsGet, input_ne_output, h, openImage,
      icoSaveEffect]
  · rw [hfs1]
    simp [fsSet, fsGet]

/-- Witness for C6 on a filesystem with a valid input. -/
theorem second_run_matches_first_witness :
    fsGet fsValid input_file
        = some (FSNode.file (FileContent.image testImg) true)
      ∧ (fsGet (runProgram (runProgram fsValid).fs).fs output_file
          = fsGet (runProgram fsValid).fs output_file
        ∧ fsGet (runProgram fsValid).fs output_file
          = some (FSNode.file (FileContent.ico (icoSave testImg sizes)) true)) :=
  ⟨rfl, second_run_matches_first fsValid testImg rfl⟩

/-- Claim C7: two runs that see the same valid input write the same
`favicon.ico` whatever was previously at the output path — the output is a
full overwrite determined by the decoded input alone, never appended to or
merged with prior content. -/
theorem output_independent_of_prior (fs1 fs2 : FS) (img : RawImage)
    (h1 : fsGet fs1 input_file
      = some (FSNode.file (FileContent.image img) true))
    (h2 : fsGet fs2 input_file
      = some (FSNode.file (FileContent.image img) true)) :
    fsGet (runProgram fs1).fs output_file
        = fsGet (runProgram fs2).fs output_file
      ∧ fsGet (runProgram fs1).fs output_file
        = some (FSNode.file (FileContent.ico (icoSave img sizes)) true) := by
  have e1 : fsGet (runProgram fs1).fs output_file
      = some (FSNode.file (FileContent.ico (icoSave img sizes)) true) := by
    simp [runProgram, h1, openImage, icoSaveEffect, fsSet, fsGet]
  have e2 : fsGet (runProgram fs2).fs output_file
      = some (FSNode.file (FileContent.ico (icoSave img sizes)) true) := by
    simp [runProgram, h2, openImage, icoSaveEffect, fsSet, fsGet]
  exact ⟨e1.trans e2.symm, e1⟩

/-- Witness for C7: an empty prior output versus a stale garbage output. -/
theorem output_independent_of_prior_witness :
    fsGet fsValid input_file
        = some (FSNode.file (FileContent.image testImg) true)
      ∧ fsGet fsWithOld input_file
        = some (FSNode.file (FileContent.image testImg) true)
      ∧ (fsGet (runProgram fsValid).fs output_file
          = fsGet (runProgram fsWithOld).fs output_file
        ∧ fsGet (runProgram fsValid).fs output_file
          = some (FSNode.file (FileContent.ico (icoSave testImg sizes)) true)) :=
  ⟨rfl, rfl, output_independent_of_prior fsValid fsWithOld testImg rfl rfl⟩

/-- Claim C8 as stated is false: on a successful run the handle is opened
and never released — no close event occurs on the way out. -/
theorem open_without_close_on_success :
    (runProgram fsValid).events.contains Event.openImg = true
      ∧ (runProgram fsValid).events.contains Event.closeImg = false := by
  decide

/-- The close event differs from the open event under the derived `BEq`. -/
theorem closeImg_beq_openImg : (Event.closeImg == Event.openImg) = false := by
  decide

/-- The close event differs from the save event under the derived `BEq`. -/
theorem closeImg_beq_save : (Event.closeImg == Event.save) = false := by
  decide

/-- Claim C8 amended: no exit path of the program ever closes the image
handle, explicitly or through scoped cleanup; the handle lives until the
process terminates. -/
theorem handle_never_closed (fs : FS) :
    ((runProgram fs).events).contains Event.closeImg = false := by
  cases hg : fsGet fs input_file with
  | none => simp [runProgram, hg]
  | some node =>
    cases node with
    | dir => simp [runProgram, hg, openImage]
    | file c r =>
      cases r <;> cases c <;>
        simp [runProgram, hg, openImage, List.contains,
          closeImg_beq_openImg, closeImg_beq_save]

/-- Claim C10: the dimensions reported after the save are exactly the
decoded source image's own dimensions — the save leaves the image object's
size unchanged, and whenever the source dimensions are not one of the
target sizes, the report cannot be a target size either. -/
theorem report_uses_source_dimensions (fs : FS) (img : RawImage)
    (h : fsGet fs input_file = some (FSNode.file (FileContent.image img) true)) :
    (icoSaveEffect img sizes).2 = img
      ∧ (runProgram fs).reportedSize = some (img.width, img.height)
      ∧ (runProgram fs).stdout.getD 1 "" = origSizeLine img
      ∧ (∀ s ∈ sizes, (img.width, img.height) ≠ s
          → (runProgram fs).reportedSize ≠ some s) := by
  have hrep : (runProgram fs).reportedSize = some (img.width, img.height) := by
    simp [runProgram, h, openImage, icoSaveEffect]
  refine ⟨rfl, hrep, ?_, ?_⟩
  · simp [runProgram, h, openImage, icoSaveEffect]
  · intro s hs hne
    rw [hrep]
    simpa using hne

/-- Witness for C10 at a concrete 2×3 image (whose size is not a target
size). -/
theorem report_uses_source_dimensions_witness :
    fsGet fsValid input_file
        = some (FSNode.file (FileContent.image testImg) true)
      ∧ ((icoSaveEffect testImg sizes).2 = testImg
        ∧ (runProgram fsValid).reportedSize
          = some (testImg.width, testImg.height)
        ∧ (runProgram fsValid).stdout.getD 1 "" = origSizeLine testImg
        ∧ (∀ s ∈ sizes, (testImg.width, testImg.height) ≠ s
            → (runProgram fsValid).reportedSize ≠ some s)) :=
  ⟨rfl, report_uses_source_dimensions fsValid testImg rfl⟩

/-- Claim C9: any file at the input path whose bytes the image library can
decode — regardless of the format they encode — makes the run succeed:
decode, write of `favicon.ico`, and the input path's entry is read but left
exactly as it was. -/
theorem decodable_input_succeeds (fs : FS) (img : RawImage)
    (h : fsGet fs input_file = some (FSNode.file (FileContent.image img) true)) :
    (runProgram fs).status = ExitStatus.exitCode 0
      ∧ fsGet (runProgram fs).fs output_file
        = some (FSNode.file (FileContent.ico (icoSave img sizes)) true)
      ∧ fsGet (runProgram fs).fs input_file = fsGet fs input_file := by
  refine ⟨?_, ?_, ?_⟩ <;>
    simp [runProgram, h, openImage, icoSaveEffect, fsSet, fsGet,
      input_ne_output]

/-- Witness for C9 on a filesystem with a valid decodable input. -/
theorem decodable_input_succeeds_witness :
    fsGet fsValid input_file
        = some (FSNode.file (FileContent.image testImg) true)
      ∧ ((runProgram fsValid).status = ExitStatus.exitCode 0
        ∧ fsGet (runProgram fsValid).fs output_file
          = some (FSNode.file (FileContent.ico (icoSave testImg sizes)) true)
        ∧ fsGet (runProgram fsValid).fs input_file
          = fsGet fsValid input_file) :=
  ⟨rfl, decodable_input_succeeds fsValid testImg rfl⟩
